import Mathlib

/-!
Verification of the LMS feature-vector similarity engine
(`src/libs/recommendation/impl/features/FeaturesEngine.hpp`).

Shallow embedding conventions:
* object ids (`Database::TrackId`, `ReleaseId`, `ArtistId`) are `Nat`;
* `SOM::Position` is a pair `Nat × Nat`;
* `ObjectPositions<IdType>` (`std::unordered_map<IdType, std::vector<SOM::Position>>`)
  is a lookup function `Nat → Option (List Position)`;
* `ObjectMatrix<IdType>` (`SOM::Matrix<std::vector<IdType>>`) is a function
  `Position → List Nat` (the cell's id vector, as `objectMatrix.get`);
* doubles (`_networkRefVectorsDistanceMedian`, distances) are `ℚ`;
* the SOM network's `getClosestRefVectorPosition` is passed as a function
  parameter `closest : List Position → ℚ → Option Position`, since
  `getSimilarObjects` only interacts with the network through it;
* the unbounded `while (1)` loop is embedded with explicit fuel; theorems
  about the loop's outputs hold for every amount of fuel, and the
  termination claim is proved as fuel-insensitivity above an explicit bound.
-/

namespace Recommendation

abbrev ObjId := Nat

abbrev Position := Nat × Nat

abbrev ObjectPositions := ObjId → Option (List Position)

abbrev ObjectMatrix := Position → List ObjId

/-- Modelled from the spec: `Utils::push_back_if_not_present` (utils/Utils.hpp,
not under src/): appends an element to the vector unless already present
(spec §4.4 step 3: "append newly found ids ... no duplicates"). -/
def push_back_if_not_present {α : Type} [DecidableEq α] (l : List α) (a : α) : List α :=
  if a ∈ l then l else l ++ [a]

/-- `FeaturesEngine::getMatchingRefVectorsPosition`: for each input id that has
an entry in `objectPositions`, push its positions into the result without
duplicates; ids with no entry are skipped. (The `if (ids.empty()) return res;`
early return is the same as folding over the empty list.) -/
def getMatchingRefVectorsPosition (ids : List ObjId) (objectPositions : ObjectPositions) :
    List Position :=
  ids.foldl
    (fun res id =>
      match objectPositions id with
      | none => res
      | some positions => positions.foldl push_back_if_not_present res)
    []

/-- `FeaturesEngine::getObjectsIds`: collect, without duplicates and in
traversal order, the ids stored in the matrix cells of the given positions. -/
def getObjectsIds (positions : List Position) (objectMatrix : ObjectMatrix) : List ObjId :=
  positions.foldl
    (fun res position => (objectMatrix position).foldl push_back_if_not_present res)
    []

/-- The `for (IdType id : closestObjectIds)` loop inside
`FeaturesEngine::getSimilarObjects`: append candidates not already in `res`
until `res` holds `maxCount` elements. (The C++ `break` is embedded as
"keep `res` unchanged once its size is `maxCount`", which is equivalent
because the guard prevents any further growth.) -/
def appendUpToMax (maxCount : Nat) (res : List ObjId) (candidates : List ObjId) : List ObjId :=
  candidates.foldl
    (fun r id => if r.length = maxCount then r else push_back_if_not_present r id)
    res

/-- The `while (1)` loop of `FeaturesEngine::getSimilarObjects`, with fuel.
Each pass: collect the ids of the searched positions, erase the input ids,
append the rest to `res` up to `maxCount`; stop when `maxCount` is reached or
when `closest` (the network's `getClosestRefVectorPosition`, called with
`_networkRefVectorsDistanceMedian * 0.75`) finds no further position;
otherwise grow the frontier with the returned position and repeat. -/
def getSimilarObjectsLoop (closest : List Position → ℚ → Option Position) (median : ℚ)
    (objectMatrix : ObjectMatrix) (ids : List ObjId) (maxCount : Nat) :
    Nat → List Position → List ObjId → List ObjId
  | 0, _, res => res
  | fuel + 1, searchedRefVectorsPosition, res =>
    let closestObjectIds :=
      (getObjectsIds searchedRefVectorsPosition objectMatrix).filter
        (fun id => decide (id ∉ ids))
    let res := appendUpToMax maxCount res closestObjectIds
    if res.length = maxCount then
      res
    else
      match closest searchedRefVectorsPosition (median * (3 / 4)) with
      | none => res
      | some closestRefVectorPosition =>
        getSimilarObjectsLoop closest median objectMatrix ids maxCount fuel
          (push_back_if_not_present searchedRefVectorsPosition closestRefVectorPosition) res

/-- `FeaturesEngine::getSimilarObjects`: resolve the seed ids to grid
positions; if none resolve return the empty result immediately, else run the
expanding-frontier loop starting from those positions with an empty result. -/
def getSimilarObjects (fuel : Nat) (closest : List Position → ℚ → Option Position) (median : ℚ)
    (ids : List ObjId) (objectMatrix : ObjectMatrix) (objectPositions : ObjectPositions)
    (maxCount : Nat) : List ObjId :=
  let searchedRefVectorsPosition := getMatchingRefVectorsPosition ids objectPositions
  if searchedRefVectorsPosition.isEmpty then
    []
  else
    getSimilarObjectsLoop closest median objectMatrix ids maxCount fuel
      searchedRefVectorsPosition []

/-- Modelled from the spec: `SOM::Network::getClosestRefVectorPosition`
(som/Network.hpp, not under src/) "returns the nearest position, by
reference-vector distance, adjacent to (but not already in) the given set,
restricted to candidates within `maxDistance`; returns none if no such
position exists" (spec §4.1). The network geometry is summarised by a finite
candidate list pairing each position with its reference-vector distance from
the searched region. -/
def closestFromCandidates (candidates : List (Position × ℚ)) (frontier : List Position)
    (maxDistance : ℚ) : Option Position :=
  let eligible := candidates.filter (fun c => decide (c.1 ∉ frontier) && decide (c.2 ≤ maxDistance))
  (eligible.foldl
      (fun best c =>
        match best with
        | none => some c
        | some b => if c.2 < b.2 then some c else some b)
      none).map Prod.fst

/-- The per-snapshot state `getSimilarObjects` reads: the per-category
position indices and grid matrices of `FeaturesEngine`
(`_trackPositions`/`_trackMatrix`, `_releasePositions`/`_releaseMatrix`,
`_artistPositions`/`_artistMatrix` keyed by `TrackArtistLinkType`), plus the
network's closest-position query and `_networkRefVectorsDistanceMedian`. -/
structure EngineState where
  closest : List Position → ℚ → Option Position
  median : ℚ
  trackPositions : ObjectPositions
  trackMatrix : ObjectMatrix
  releasePositions : ObjectPositions
  releaseMatrix : ObjectMatrix
  artistPositions : ObjectPositions
  artistMatrix : Nat → ObjectMatrix

/-- Modelled from the spec: `FeaturesEngine::getSimilarTracks`
(FeaturesEngine.cpp, not under src/) delegates the given track ids to
`getSimilarObjects` against the installed snapshot's track index and track
matrix (spec §4.5). -/
def getSimilarTracks (e : EngineState) (fuel : Nat) (tracksId : List ObjId)
    (maxCount : Nat) : List ObjId :=
  getSimilarObjects fuel e.closest e.median tracksId e.trackMatrix e.trackPositions maxCount

/-- Modelled from the spec: `FeaturesEngine::getSimilarTracksFromTrackList`
(FeaturesEngine.cpp, not under src/) resolves the track list to its track ids
(a database lookup, out of scope — the resolved ids are taken as a parameter)
and delegates them to `getSimilarObjects` as `getSimilarTracks` does. -/
def getSimilarTracksFromTrackList (e : EngineState) (fuel : Nat)
    (tracklistTrackIds : List ObjId) (maxCount : Nat) : List ObjId :=
  getSimilarObjects fuel e.closest e.median tracklistTrackIds e.trackMatrix e.trackPositions
    maxCount

/-- Modelled from the spec: `FeaturesEngine::getSimilarReleases`
(FeaturesEngine.cpp, not under src/) delegates the given release id to
`getSimilarObjects` against the release index and release matrix. -/
def getSimilarReleases (e : EngineState) (fuel : Nat) (releaseId : ObjId)
    (maxCount : Nat) : List ObjId :=
  getSimilarObjects fuel e.closest e.median [releaseId] e.releaseMatrix e.releasePositions
    maxCount

/-- Modelled from the spec: `FeaturesEngine::getSimilarArtists`
(FeaturesEngine.cpp, not under src/) delegates the given artist id to
`getSimilarObjects` against the artist index and the artist matrix of the
requested link types (the per-link-type matrices are read through one reverse
index mapping each position to the ids of all requested link types). -/
def getSimilarArtists (e : EngineState) (fuel : Nat) (artistId : ObjId)
    (linkTypes : List Nat) (maxCount : Nat) : List ObjId :=
  getSimilarObjects fuel e.closest e.median [artistId]
    (fun position => (linkTypes.map (fun linkType => e.artistMatrix linkType position)).flatten)
    e.artistPositions maxCount

/-- "No installed Snapshot": no trained network and every per-category
position index and grid matrix empty (spec §3 lifecycle, §8). -/
def EngineState.noSnapshot (e : EngineState) : Prop :=
  (∀ id, e.trackPositions id = none) ∧ (∀ p, e.trackMatrix p = []) ∧
    (∀ id, e.releasePositions id = none) ∧ (∀ p, e.releaseMatrix p = []) ∧
    (∀ id, e.artistPositions id = none) ∧ (∀ lt p, e.artistMatrix lt p = [])

/-! ### Cache codec (spec §4.3, §6)

`FeaturesEngine::toCache` / `FeaturesEngine::loadFromCache` and the
`FeaturesEngineCache` codec are declared in FeaturesEngine.hpp but their
bodies are not under src/; the codec is modelled from the spec. Indices are
represented as association lists so that snapshot equality is structural. -/

/-- The SOM network a snapshot owns: fixed grid dimensions, one reference
vector per cell (stored row-major), the vector dimensionality, and the
derived median distance between adjacent reference vectors. -/
structure Network where
  width : Nat
  height : Nat
  dim : Nat
  refVectors : List (List ℚ)
  distanceMedian : ℚ
  deriving DecidableEq, Repr

/-- Modelled from the spec: a Snapshot is the tuple (Network, {PositionIndex
per category}, {GridMatrix per category}) (spec §3); artists carry one index
pair per track-artist link type. -/
structure Snapshot where
  network : Network
  trackPositions : List (ObjId × List Position)
  trackMatrix : List (Position × List ObjId)
  releasePositions : List (ObjId × List Position)
  releaseMatrix : List (Position × List ObjId)
  artistPositions : List (ObjId × List Position)
  artistMatrix : List (Nat × List (Position × List ObjId))
  deriving DecidableEq, Repr

/-- Modelled from the spec: the versioned serialized form of a Snapshot —
"one versioned CacheBlob containing format/version tag, grid dimensions,
reference vectors, and per-category position/matrix indices" (spec §6). The
reference vectors are persisted flattened. -/
structure CacheBlob where
  version : Nat
  width : Nat
  height : Nat
  dim : Nat
  flatRefVectors : List ℚ
  distanceMedian : ℚ
  trackPositions : List (ObjId × List Position)
  trackMatrix : List (Position × List ObjId)
  releasePositions : List (ObjId × List Position)
  releaseMatrix : List (Position × List ObjId)
  artistPositions : List (ObjId × List Position)
  artistMatrix : List (Nat × List (Position × List ObjId))
  deriving DecidableEq, Repr

/-- The codec's current format/version tag. -/
def cacheFormatVersion : Nat := 1

/-- Modelled from the spec: `encode(snapshot) -> CacheBlob` (spec §4.3). -/
def encode (s : Snapshot) : CacheBlob :=
  { version := cacheFormatVersion
    width := s.network.width
    height := s.network.height
    dim := s.network.dim
    flatRefVectors := s.network.refVectors.flatten
    distanceMedian := s.network.distanceMedian
    trackPositions := s.trackPositions
    trackMatrix := s.trackMatrix
    releasePositions := s.releasePositions
    releaseMatrix := s.releaseMatrix
    artistPositions := s.artistPositions
    artistMatrix := s.artistMatrix }

/-- Split a flat component list back into `count` reference vectors of
`dim` components each. -/
def unflatten (dim : Nat) : Nat → List ℚ → List (List ℚ)
  | 0, _ => []
  | count + 1, l => l.take dim :: unflatten dim count (l.drop dim)

/-- Modelled from the spec: `decode(blob, expectedDimensions) -> Snapshot or
IncompatibleCache` (spec §4.3): validates the format/version tag and the
reference-vector dimensionality against the configured feature settings; any
mismatch fails closed (`none`) rather than attempting partial
reconstruction. -/
def decode (blob : CacheBlob) (expectedDimensions : Nat) : Option Snapshot :=
  if blob.version = cacheFormatVersion ∧ blob.dim = expectedDimensions then
    some
      { network :=
          { width := blob.width
            height := blob.height
            dim := blob.dim
            refVectors := unflatten blob.dim (blob.width * blob.height) blob.flatRefVectors
            distanceMedian := blob.distanceMedian }
        trackPositions := blob.trackPositions
        trackMatrix := blob.trackMatrix
        releasePositions := blob.releasePositions
        releaseMatrix := blob.releaseMatrix
        artistPositions := blob.artistPositions
        artistMatrix := blob.artistMatrix }
  else
    none

/-- A snapshot's network is well-formed when it holds one reference vector
per grid cell and every reference vector has the declared dimensionality
(spec §3: "total dimensionality equals the sum of configured per-feature
dimensions"). -/
def Snapshot.WellFormed (s : Snapshot) : Prop :=
  s.network.refVectors.length = s.network.width * s.network.height ∧
    ∀ v ∈ s.network.refVectors, v.length = s.network.dim

/-! ### Helper lemmas -/

theorem push_back_eq_or {α : Type} [DecidableEq α] (l : List α) (a : α) :
    push_back_if_not_present l a = l ∨ push_back_if_not_present l a = l ++ [a] := by
  unfold push_back_if_not_present
  split
  · exact Or.inl rfl
  · exact Or.inr rfl

theorem mem_push_back {α : Type} [DecidableEq α] {l : List α} {a x : α} :
    x ∈ push_back_if_not_present l a ↔ x ∈ l ∨ x = a := by
  unfold push_back_if_not_present
  split
  · rename_i h
    constructor
    · exact Or.inl
    · rintro (hx | rfl)
      · exact hx
      · exact h
  · simp

theorem push_back_nodup {α : Type} [DecidableEq α] {l : List α} {a : α} (h : l.Nodup) :
    (push_back_if_not_present l a).Nodup := by
  unfold push_back_if_not_present
  split
  · exact h
  · rename_i ha
    simpa [List.nodup_append] using ⟨h, ha⟩

theorem appendUpToMax_nil (maxCount : Nat) (res : List ObjId) :
    appendUpToMax maxCount res [] = res := rfl

theorem appendUpToMax_cons (maxCount : Nat) (res : List ObjId) (a : ObjId) (c : List ObjId) :
    appendUpToMax maxCount res (a :: c) =
      appendUpToMax maxCount
        (if res.length = maxCount then res else push_back_if_not_present res a) c := rfl

/-- `appendUpToMax` only appends, and the appended ids form a subsequence of
the candidate list (discovery order). -/
theorem appendUpToMax_eq_append (maxCount : Nat) (res candidates : List ObjId) :
    ∃ t, appendUpToMax maxCount res candidates = res ++ t ∧ t.Sublist candidates := by
  induction candidates generalizing res with
  | nil => exact ⟨[], by simp [appendUpToMax_nil]⟩
  | cons a c ih =>
    rw [appendUpToMax_cons]
    split
    · obtain ⟨t, ht, hs⟩ := ih res
      exact ⟨t, ht, hs.cons a⟩
    · rcases push_back_eq_or res a with h | h
      · rw [h]
        obtain ⟨t, ht, hs⟩ := ih res
        exact ⟨t, ht, hs.cons a⟩
      · rw [h]
        obtain ⟨t, ht, hs⟩ := ih (res ++ [a])
        exact ⟨a :: t, by simpa using ht, hs.cons₂ a⟩

theorem appendUpToMax_prefix (maxCount : Nat) (res candidates : List ObjId) :
    res <+: appendUpToMax maxCount res candidates := by
  obtain ⟨t, ht, _⟩ := appendUpToMax_eq_append maxCount res candidates
  exact ⟨t, ht.symm⟩

theorem mem_appendUpToMax {maxCount : Nat} {res candidates : List ObjId} {x : ObjId}
    (h : x ∈ appendUpToMax maxCount res candidates) : x ∈ res ∨ x ∈ candidates := by
  obtain ⟨t, ht, hs⟩ := appendUpToMax_eq_append maxCount res candidates
  rw [ht] at h
  rcases List.mem_append.mp h with h | h
  · exact Or.inl h
  · exact Or.inr (hs.subset h)

theorem appendUpToMax_length_le {maxCount : Nat} {res : List ObjId} (candidates : List ObjId)
    (h : res.length ≤ maxCount) :
    (appendUpToMax maxCount res candidates).length ≤ maxCount := by
  induction candidates generalizing res with
  | nil => simpa [appendUpToMax_nil] using h
  | cons a c ih =>
    rw [appendUpToMax_cons]
    split
    · exact ih h
    · rename_i hne
      apply ih
      rcases push_back_eq_or res a with hp | hp <;> rw [hp]
      · exact h
      · simpa using Nat.lt_of_le_of_ne h hne

theorem appendUpToMax_nodup {maxCount : Nat} {res : List ObjId} (candidates : List ObjId)
    (h : res.Nodup) : (appendUpToMax maxCount res candidates).Nodup := by
  induction candidates generalizing res with
  | nil => simpa [appendUpToMax_nil] using h
  | cons a c ih =>
    rw [appendUpToMax_cons]
    split
    · exact ih h
    · exact ih (push_back_nodup h)

theorem appendUpToMax_of_length_eq {maxCount : Nat} {res : List ObjId} (candidates : List ObjId)
    (h : res.length = maxCount) : appendUpToMax maxCount res candidates = res := by
  induction candidates with
  | nil => exact appendUpToMax_nil _ _
  | cons a c ih => rw [appendUpToMax_cons, if_pos h]; exact ih

theorem getSimilarObjectsLoop_succ (closest : List Position → ℚ → Option Position) (median : ℚ)
    (objectMatrix : ObjectMatrix) (ids : List ObjId) (maxCount fuel : Nat)
    (frontier : List Position) (res : List ObjId) :
    getSimilarObjectsLoop closest median objectMatrix ids maxCount (fuel + 1) frontier res =
      (let res' := appendUpToMax maxCount res
        ((getObjectsIds frontier objectMatrix).filter (fun id => decide (id ∉ ids)))
      if res'.length = maxCount then res'
      else
        match closest frontier (median * (3 / 4)) with
        | none => res'
        | some p =>
          getSimilarObjectsLoop closest median objectMatrix ids maxCount fuel
            (push_back_if_not_present frontier p) res') := rfl

theorem getSimilarObjectsLoop_length_le {closest : List Position → ℚ → Option Position}
    {median : ℚ} {objectMatrix : ObjectMatrix} {ids : List ObjId} {maxCount : Nat}
    (fuel : Nat) (frontier : List Position) {res : List ObjId} (h : res.length ≤ maxCount) :
    (getSimilarObjectsLoop closest median objectMatrix ids maxCount fuel frontier res).length
      ≤ maxCount := by
  induction fuel generalizing frontier res with
  | zero => exact h
  | succ fuel ih =>
    rw [getSimilarObjectsLoop_succ]
    have h' := appendUpToMax_length_le
      ((getObjectsIds frontier objectMatrix).filter (fun id => decide (id ∉ ids))) h
    dsimp only
    split
    · exact h'
    · split
      · exact h'
      · exact ih _ h'

theorem getSimilarObjectsLoop_not_mem {closest : List Position → ℚ → Option Position}
    {median : ℚ} {objectMatrix : ObjectMatrix} {ids : List ObjId} {maxCount : Nat}
    (fuel : Nat) (frontier : List Position) {res : List ObjId}
    (h : ∀ y ∈ res, y ∉ ids) :
    ∀ x ∈ getSimilarObjectsLoop closest median objectMatrix ids maxCount fuel frontier res,
      x ∉ ids := by
  induction fuel generalizing frontier res with
  | zero => exact h
  | succ fuel ih =>
    rw [getSimilarObjectsLoop_succ]
    have h' : ∀ y ∈ appendUpToMax maxCount res
        ((getObjectsIds frontier objectMatrix).filter (fun id => decide (id ∉ ids))), y ∉ ids := by
      intro y hy
      rcases mem_appendUpToMax hy with hy | hy
      · exact h y hy
      · have := List.of_mem_filter hy
        simpa using this
    dsimp only
    split
    · exact h'
    · split
      · exact h'
      · exact ih _ h'

theorem getSimilarObjectsLoop_nodup {closest : List Position → ℚ → Option Position}
    {median : ℚ} {objectMatrix : ObjectMatrix} {ids : List ObjId} {maxCount : Nat}
    (fuel : Nat) (frontier : List Position) {res : List ObjId} (h : res.Nodup) :
    (getSimilarObjectsLoop closest median objectMatrix ids maxCount fuel frontier res).Nodup := by
  induction fuel generalizing frontier res with
  | zero => exact h
  | succ fuel ih =>
    rw [getSimilarObjectsLoop_succ]
    have h' := @appendUpToMax_nodup maxCount res
      ((getObjectsIds frontier objectMatrix).filter (fun id => decide (id ∉ ids))) h
    dsimp only
    split
    · exact h'
    · split
      · exact h'
      · exact ih _ h'

theorem getSimilarObjectsLoop_prefix (closest : List Position → ℚ → Option Position)
    (median : ℚ) (objectMatrix : ObjectMatrix) (ids : List ObjId) (maxCount : Nat)
    (fuel : Nat) (frontier : List Position) (res : List ObjId) :
    res <+: getSimilarObjectsLoop closest median objectMatrix ids maxCount fuel frontier res := by
  induction fuel generalizing frontier res with
  | zero => exact List.prefix_refl res
  | succ fuel ih =>
    rw [getSimilarObjectsLoop_succ]
    have h' := appendUpToMax_prefix maxCount res
      ((getObjectsIds frontier objectMatrix).filter (fun id => decide (id ∉ ids)))
    dsimp only
    split
    · exact h'
    · split
      · exact h'
      · exact h'.trans (ih _ _)

theorem getMatchingRefVectorsPosition_eq_nil {ids : List ObjId}
    {objectPositions : ObjectPositions} (h : ∀ id ∈ ids, objectPositions id = none) :
    getMatchingRefVectorsPosition ids objectPositions = [] := by
  unfold getMatchingRefVectorsPosition
  suffices h' : ∀ (l : List ObjId) (res : List Position), (∀ id ∈ l, objectPositions id = none) →
      l.foldl
        (fun res id =>
          match objectPositions id with
          | none => res
          | some positions => positions.foldl push_back_if_not_present res)
        res = res from h' ids [] h
  intro l
  induction l with
  | nil => intro res _; rfl
  | cons a t ih =>
    intro res hl
    rw [List.foldl_cons]
    have ha : objectPositions a = none := hl a (List.mem_cons_self a t)
    rw [show (match objectPositions a with
        | none => res
        | some positions => positions.foldl push_back_if_not_present res) = res by
      rw [ha]]
    exact ih res (fun id hid => hl id (List.mem_cons_of_mem a hid))

theorem getSimilarObjectsLoop_maxCount_zero (closest : List Position → ℚ → Option Position)
    (median : ℚ) (objectMatrix : ObjectMatrix) (ids : List ObjId) (fuel : Nat)
    (frontier : List Position) :
    getSimilarObjectsLoop closest median objectMatrix ids 0 fuel frontier [] = [] := by
  cases fuel with
  | zero => rfl
  | succ fuel =>
    rw [getSimilarObjectsLoop_succ]
    have h0 := @appendUpToMax_of_length_eq 0 []
      ((getObjectsIds frontier objectMatrix).filter (fun id => decide (id ∉ ids))) rfl
    dsimp only
    rw [h0]
    simp

/-! ### Claim theorems -/

/-- C1: for every snapshot state (closest-position query, distance median,
grid matrix, position index), every seed id list and every `maxCount` (and
every fuel), `getSimilarObjects` — the search backing `getSimilarTracks`,
`getSimilarReleases`, `getSimilarArtists` and `getSimilarTracksFromTrackList`
— returns at most `maxCount` ids. -/
theorem getSimilarObjects_length_le_maxCount (fuel : Nat)
    (closest : List Position → ℚ → Option Position) (median : ℚ) (ids : List ObjId)
    (objectMatrix : ObjectMatrix) (objectPositions : ObjectPositions) (maxCount : Nat) :
    (getSimilarObjects fuel closest median ids objectMatrix objectPositions maxCount).length
      ≤ maxCount := by
  unfold getSimilarObjects
  dsimp only
  split
  · simp
  · exact getSimilarObjectsLoop_length_le fuel _ (Nat.zero_le maxCount)

/-- C2: for every snapshot state, seed id list and `maxCount` (and every
fuel), no id returned by `getSimilarObjects` occurs in the input seed list:
seed ids are never returned. -/
theorem getSimilarObjects_not_mem_seeds (fuel : Nat)
    (closest : List Position → ℚ → Option Position) (median : ℚ) (ids : List ObjId)
    (objectMatrix : ObjectMatrix) (objectPositions : ObjectPositions) (maxCount : Nat) :
    ∀ x ∈ getSimilarObjects fuel closest median ids objectMatrix objectPositions maxCount,
      x ∉ ids := by
  unfold getSimilarObjects
  dsimp only
  split
  · simp
  · exact getSimilarObjectsLoop_not_mem fuel _ (by simp)

/-- C3: for every snapshot state, seed id list and `maxCount` (and every
fuel), the result of `getSimilarObjects` has no duplicate id; moreover each
pass of the loop only appends to the already-collected result, and the ids a
pass appends form a subsequence of that pass's candidate list — newly found
ids are appended in discovery order. -/
theorem getSimilarObjects_nodup_and_append_order (fuel : Nat)
    (closest : List Position → ℚ → Option Position) (median : ℚ) (ids : List ObjId)
    (objectMatrix : ObjectMatrix) (objectPositions : ObjectPositions) (maxCount : Nat) :
    (getSimilarObjects fuel closest median ids objectMatrix objectPositions maxCount).Nodup ∧
      (∀ frontier res,
        res <+: getSimilarObjectsLoop closest median objectMatrix ids maxCount fuel frontier
          res) ∧
      ∀ res candidates, ∃ t, appendUpToMax maxCount res candidates = res ++ t ∧
        t.Sublist candidates := by
  refine ⟨?_, fun frontier res =>
    getSimilarObjectsLoop_prefix closest median objectMatrix ids maxCount fuel frontier res,
    fun res candidates => appendUpToMax_eq_append maxCount res candidates⟩
  unfold getSimilarObjects
  dsimp only
  split
  · simp
  · exact getSimilarObjectsLoop_nodup fuel _ List.nodup_nil

/-- C4: if the seed list is empty, or no seed id has an entry in the position
index, `getSimilarObjects` returns the empty result immediately — for every
closest-position query, median, grid matrix, `maxCount` and fuel (so no
candidate is collected and the frontier is never expanded). -/
theorem getSimilarObjects_no_resolved_seed (fuel : Nat)
    (closest : List Position → ℚ → Option Position) (median : ℚ) (ids : List ObjId)
    (objectMatrix : ObjectMatrix) (objectPositions : ObjectPositions) (maxCount : Nat)
    (h : ids = [] ∨ ∀ id ∈ ids, objectPositions id = none) :
    getSimilarObjects fuel closest median ids objectMatrix objectPositions maxCount = [] := by
  have hnil : getMatchingRefVectorsPosition ids objectPositions = [] := by
    rcases h with rfl | h
    · rfl
    · exact getMatchingRefVectorsPosition_eq_nil h
  unfold getSimilarObjects
  rw [hnil]
  rfl

/-- C10: called with `maxCount = 0`, `getSimilarObjects` returns the empty
result for every snapshot state, seed list and fuel; it does so for every
closest-position query — and two engines differing only in their
closest-position query return the same (empty) answer, so the network's
`getClosestRefVectorPosition` is never consulted. -/
theorem getSimilarObjects_maxCount_zero (fuel : Nat)
    (closest closest' : List Position → ℚ → Option Position) (median : ℚ) (ids : List ObjId)
    (objectMatrix : ObjectMatrix) (objectPositions : ObjectPositions) :
    getSimilarObjects fuel closest median ids objectMatrix objectPositions 0 = [] ∧
      getSimilarObjects fuel closest median ids objectMatrix objectPositions 0 =
        getSimilarObjects fuel closest' median ids objectMatrix objectPositions 0 := by
  have h : ∀ (c : List Position → ℚ → Option Position),
      getSimilarObjects fuel c median ids objectMatrix objectPositions 0 = [] := by
    intro c
    unfold getSimilarObjects
    dsimp only
    split
    · rfl
    · exact getSimilarObjectsLoop_maxCount_zero c median objectMatrix ids fuel _
  exact ⟨h closest, (h closest).trans (h closest').symm⟩

/-- C5: with no installed snapshot — no trained network, every per-category
position index and grid matrix empty — each of the four query operations
returns the empty result (rather than failing), for every seed input,
`maxCount` and fuel. -/
theorem queries_empty_of_noSnapshot (e : EngineState) (h : e.noSnapshot)
    (fuel maxCount : Nat) (tracksId tracklistTrackIds : List ObjId)
    (releaseId artistId : ObjId) (linkTypes : List Nat) :
    getSimilarTracks e fuel tracksId maxCount = [] ∧
      getSimilarTracksFromTrackList e fuel tracklistTrackIds maxCount = [] ∧
      getSimilarReleases e fuel releaseId maxCount = [] ∧
      getSimilarArtists e fuel artistId linkTypes maxCount = [] := by
  obtain ⟨ht, -, hr, -, ha, -⟩ := h
  refine ⟨?_, ?_, ?_, ?_⟩ <;> apply getSimilarObjects_no_resolved_seed
  · exact Or.inr fun id _ => ht id
  · exact Or.inr fun id _ => ht id
  · exact Or.inr fun id _ => hr id
  · exact Or.inr fun id _ => ha id

/-- An engine with nothing installed: no network answer, empty indices. -/
def emptyEngine : EngineState :=
  { closest := fun _ _ => none
    median := 0
    trackPositions := fun _ => none
    trackMatrix := fun _ => []
    releasePositions := fun _ => none
    releaseMatrix := fun _ => []
    artistPositions := fun _ => none
    artistMatrix := fun _ _ => [] }

/-- Witness for C5 at a concrete engine with no installed snapshot. -/
theorem queries_empty_of_noSnapshot_witness :
    getSimilarTracks emptyEngine 3 [0, 1] 5 = [] ∧
      getSimilarTracksFromTrackList emptyEngine 3 [2] 5 = [] ∧
      getSimilarReleases emptyEngine 3 4 5 = [] ∧
      getSimilarArtists emptyEngine 3 6 [1] 5 = [] :=
  queries_empty_of_noSnapshot emptyEngine
    ⟨fun _ => rfl, fun _ => rfl, fun _ => rfl, fun _ => rfl, fun _ => rfl, fun _ _ => rfl⟩
    3 5 [0, 1] [2] 4 6 [1]

/-! ### The spec's concrete 2×2-grid scenarios (§8)

Track ids: A = 0, B = 1, C = 2, D = 3. A and B map to cell (0,0), C to cell
(0,1), D to cell (1,1). The network median distance is 4, so the search
cutoff `median * 0.75` is 3. -/

/-- Position index of the 2×2 scenario. -/
def scenarioTrackPositions : ObjectPositions := fun id =>
  if id = 0 then some [(0, 0)]
  else if id = 1 then some [(0, 0)]
  else if id = 2 then some [(0, 1)]
  else if id = 3 then some [(1, 1)]
  else none

/-- Grid matrix of the 2×2 scenario (reverse index). -/
def scenarioTrackMatrix : ObjectMatrix := fun p =>
  if p = (0, 0) then [0, 1] else if p = (0, 1) then [2] else if p = (1, 1) then [3] else []

/-- Network answers when cell (0,1) lies within the 0.75×median cutoff:
(0,1) at reference-vector distance 2 and (1,1) at distance 3. -/
def scenarioClosestWithin : List Position → ℚ → Option Position :=
  closestFromCandidates [((0, 1), 2), ((1, 1), 3)]

/-- Network answers when no further cell lies within the 0.75×median cutoff:
(0,1) at reference-vector distance 5 and (1,1) at distance 6, both beyond
the cutoff 3. -/
def scenarioClosestBeyond : List Position → ℚ → Option Position :=
  closestFromCandidates [((0, 1), 5), ((1, 1), 6)]

/-- Position index of the single-populated-cell scenario: only A and B, both
in cell (0,0). -/
def singleCellPositions : ObjectPositions := fun id =>
  if id = 0 then some [(0, 0)] else if id = 1 then some [(0, 0)] else none

/-- Grid matrix of the single-populated-cell scenario. -/
def singleCellMatrix : ObjectMatrix := fun p =>
  if p = (0, 0) then [0, 1] else []

/-- C6: (i) the search consults the network only at the distance bound
`median * 0.75`: two closest-position queries agreeing at that bound yield
identical searches; (ii) whenever the closest-position query finds no
further position at that bound, the pass stops and returns exactly what has
been collected; (iii) `getSimilarTracks([A], maxCount = 5)` where only B
shares A's cell and no further cell is within the cutoff returns exactly
`[B]` — fewer than requested, not an error. -/
theorem closest_cutoff_stop_and_fewer_than_requested :
    (∀ (closest₁ closest₂ : List Position → ℚ → Option Position) (median : ℚ)
        (objectMatrix : ObjectMatrix) (ids : List ObjId) (maxCount fuel : Nat)
        (frontier : List Position) (res : List ObjId),
        (∀ f, closest₁ f (median * (3 / 4)) = closest₂ f (median * (3 / 4))) →
        getSimilarObjectsLoop closest₁ median objectMatrix ids maxCount fuel frontier res =
          getSimilarObjectsLoop closest₂ median objectMatrix ids maxCount fuel frontier res) ∧
      (∀ (closest : List Position → ℚ → Option Position) (median : ℚ)
        (objectMatrix : ObjectMatrix) (ids : List ObjId) (maxCount fuel : Nat)
        (frontier : List Position) (res : List ObjId),
        closest frontier (median * (3 / 4)) = none →
        getSimilarObjectsLoop closest median objectMatrix ids maxCount (fuel + 1) frontier
            res =
          appendUpToMax maxCount res
            ((getObjectsIds frontier objectMatrix).filter (fun id => decide (id ∉ ids)))) ∧
      ∀ fuel,
        getSimilarObjects (fuel + 1) scenarioClosestBeyond 4 [0] singleCellMatrix
          singleCellPositions 5 = [1] := by
  refine ⟨?_, ?_, ?_⟩
  · intro closest₁ closest₂ median objectMatrix ids maxCount fuel
    induction fuel with
    | zero => intro frontier res _; rfl
    | succ fuel ih =>
      intro frontier res h
      rw [getSimilarObjectsLoop_succ, getSimilarObjectsLoop_succ]
      dsimp only
      rw [h frontier]
      split
      · rfl
      · cases closest₂ frontier (median * (3 / 4)) with
        | none => rfl
        | some p => exact ih _ _ h
  · intro closest median objectMatrix ids maxCount fuel frontier res h
    rw [getSimilarObjectsLoop_succ]
    dsimp only
    rw [h]
    split <;> rfl
  · intro fuel
    norm_num [getSimilarObjects, getSimilarObjectsLoop, getMatchingRefVectorsPosition,
      getObjectsIds, appendUpToMax, push_back_if_not_present, closestFromCandidates,
      singleCellPositions, singleCellMatrix, scenarioClosestBeyond, List.foldl, List.filter]

/-- Witness for C6: instantiating part (ii) at the single-cell scenario with
the collected result `[1]`, the loop stops there. -/
theorem closest_cutoff_stop_witness :
    getSimilarObjectsLoop scenarioClosestBeyond 4 singleCellMatrix [0] 5 1 [(0, 0)] [1] =
      appendUpToMax 5 [1]
        ((getObjectsIds [(0, 0)] singleCellMatrix).filter (fun id => decide (id ∉ [0]))) :=
  closest_cutoff_stop_and_fewer_than_requested.2.1 scenarioClosestBeyond 4 singleCellMatrix
    [0] 5 0 [(0, 0)] [1]
    (by norm_num [scenarioClosestBeyond, closestFromCandidates, List.filter])

/-- C7: on the 2×2 grid where A and B map to cell (0,0), C to (0,1) and D to
(1,1), `getSimilarTracks([A], maxCount = 2)` first returns B (the same-cell
object); when cell (0,1) is within the 0.75×median cutoff it then returns C
and stops at 2 results, never returning A (result exactly `[B, C]`); when no
cell is within the cutoff it returns just `[B]`. -/
theorem grid2x2_scenario :
    (∀ fuel,
        getSimilarObjects (fuel + 2) scenarioClosestWithin 4 [0] scenarioTrackMatrix
          scenarioTrackPositions 2 = [1, 2]) ∧
      ∀ fuel,
        getSimilarObjects (fuel + 1) scenarioClosestBeyond 4 [0] scenarioTrackMatrix
          scenarioTrackPositions 2 = [1] := by
  constructor <;> intro fuel <;>
    norm_num [getSimilarObjects, getSimilarObjectsLoop, getMatchingRefVectorsPosition,
      getObjectsIds, appendUpToMax, push_back_if_not_present, closestFromCandidates,
      scenarioTrackPositions, scenarioTrackMatrix, scenarioClosestWithin,
      scenarioClosestBeyond, List.foldl, List.filter]

/-- Witness for C2: in the 2×2 scenario the returned id B = 1 is not the
seed A = 0. -/
theorem getSimilarObjects_not_mem_seeds_witness : (1 : ObjId) ∉ [(0 : ObjId)] :=
  getSimilarObjects_not_mem_seeds 2 scenarioClosestWithin 4 [0] scenarioTrackMatrix
    scenarioTrackPositions 2 1
    (by norm_num [getSimilarObjects, getSimilarObjectsLoop, getMatchingRefVectorsPosition,
      getObjectsIds, appendUpToMax, push_back_if_not_present, closestFromCandidates,
      scenarioTrackPositions, scenarioTrackMatrix, scenarioClosestWithin, List.foldl,
      List.filter])

/-- Witness for C4: a seed id with no entry in the position index yields the
empty result. -/
theorem getSimilarObjects_no_resolved_seed_witness :
    getSimilarObjects 3 scenarioClosestWithin 4 [7] scenarioTrackMatrix
      scenarioTrackPositions 5 = [] :=
  getSimilarObjects_no_resolved_seed 3 scenarioClosestWithin 4 [7] scenarioTrackMatrix
    scenarioTrackPositions 5 (Or.inr (by decide))

theorem unflatten_flatten {dim : Nat} :
    ∀ (rows : List (List ℚ)), (∀ r ∈ rows, r.length = dim) →
      unflatten dim rows.length rows.flatten = rows := by
  intro rows
  induction rows with
  | nil => intro _; rfl
  | cons r t ih =>
    intro h
    have hr : r.length = dim := h r (List.mem_cons_self r t)
    simp only [List.length_cons, List.flatten_cons, unflatten]
    rw [List.take_left' hr, List.drop_left' hr]
    exact congrArg (r :: ·) (ih fun x hx => h x (List.mem_cons_of_mem r hx))

/-- C8: decoding the encoding of a (well-formed) snapshot reconstructs it
identically — the network's reference vectors and all per-category position
indices and grid matrices are rebuilt equal to the originals. -/
theorem decode_encode_roundtrip (s : Snapshot) (h : s.WellFormed) :
    decode (encode s) s.network.dim = some s := by
  cases s with
  | mk network tp tm rp rm ap am =>
    cases network with
    | mk w ht d rv med =>
      obtain ⟨hlen, hdim⟩ := h
      simp only [Snapshot.WellFormed] at hlen hdim
      simp [decode, encode, Network.mk.injEq, Snapshot.mk.injEq]
      rw [← hlen]
      exact unflatten_flatten rv hdim

/-- A concrete well-formed snapshot: a 2×2 network of 3-dimensional
reference vectors with populated per-category indices. -/
def exampleSnapshot : Snapshot :=
  { network :=
      { width := 2
        height := 2
        dim := 3
        refVectors := [[1, 2, 3], [4, 5, 6], [7, 8, 9], [10, 11, 12]]
        distanceMedian := 4 }
    trackPositions := [(0, [(0, 0)]), (1, [(0, 0)]), (2, [(0, 1)])]
    trackMatrix := [((0, 0), [0, 1]), ((0, 1), [2])]
    releasePositions := [(5, [(1, 1)])]
    releaseMatrix := [((1, 1), [5])]
    artistPositions := [(8, [(1, 0)])]
    artistMatrix := [(1, [((1, 0), [8])])] }

/-- Witness for C8 at a concrete snapshot. -/
theorem decode_encode_roundtrip_witness :
    decode (encode exampleSnapshot) 3 = some exampleSnapshot :=
  decode_encode_roundtrip exampleSnapshot ⟨by decide, by decide⟩

/-- A position returned by `closestFromCandidates` is never already in the
given frontier and always comes from the candidate list. -/
theorem closestFromCandidates_spec (candidates : List (Position × ℚ)) (frontier : List Position)
    (d : ℚ) (p : Position) (h : closestFromCandidates candidates frontier d = some p) :
    p ∉ frontier ∧ ∃ q, (p, q) ∈ candidates := by
  unfold closestFromCandidates at h
  rcases Option.map_eq_some'.mp h with ⟨b, hb, rfl⟩
  have aux : ∀ (l : List (Position × ℚ)) (acc : Option (Position × ℚ)) (b : Position × ℚ),
      l.foldl
          (fun best c =>
            match best with
            | none => some c
            | some bb => if c.2 < bb.2 then some c else some bb)
          acc = some b →
        acc = some b ∨ b ∈ l := by
    intro l
    induction l with
    | nil => intro acc b h'; exact Or.inl h'
    | cons c t iht =>
      intro acc b h'
      rw [List.foldl_cons] at h'
      rcases iht _ b h' with h'' | h''
      · cases acc with
        | none =>
          dsimp only at h''
          have hcb : c = b := Option.some.inj h''
          subst hcb
          exact Or.inr (List.mem_cons_self c t)
        | some a =>
          dsimp only at h''
          split at h''
          · have hcb : c = b := Option.some.inj h''
            subst hcb
            exact Or.inr (List.mem_cons_self c t)
          · exact Or.inl h''
      · exact Or.inr (List.mem_cons_of_mem c h'')
  rcases aux _ none b hb with h' | h'
  · exact absurd h' (by simp)
  · have hmem := List.mem_filter.mp h'
    obtain ⟨hbc, hpred⟩ := hmem
    simp only [Bool.and_eq_true, decide_eq_true_eq] at hpred
    exact ⟨hpred.1, ⟨b.2, by simpa using hbc⟩⟩

/-- C9: the expanding-frontier loop terminates: provided the closest-position
query only ever returns positions of the (finite) grid `G` that are not
already in the frontier, the frontier — duplicate-free and confined to `G` —
strictly grows by one position per continuing pass, so the loop's answer is
already final with `|G| + 1 - |frontier|` fuel: any two sufficient fuel
amounts give the same result. -/
theorem getSimilarObjectsLoop_fuel_insensitive (G : List Position)
    (closest : List Position → ℚ → Option Position) (median : ℚ)
    (objectMatrix : ObjectMatrix) (ids : List ObjId) (maxCount : Nat)
    (hclosest : ∀ frontier d p, closest frontier d = some p → p ∉ frontier ∧ p ∈ G) :
    ∀ (fuel₁ fuel₂ : Nat) (frontier : List Position) (res : List ObjId),
      frontier.Nodup → (∀ p ∈ frontier, p ∈ G) →
      G.length + 1 - frontier.length ≤ fuel₁ → G.length + 1 - frontier.length ≤ fuel₂ →
      getSimilarObjectsLoop closest median objectMatrix ids maxCount fuel₁ frontier res =
        getSimilarObjectsLoop closest median objectMatrix ids maxCount fuel₂ frontier res := by
  intro fuel₁
  induction fuel₁ with
  | zero =>
    intro fuel₂ frontier res hnd hsub h1 _
    have hle : frontier.length ≤ G.length := (hnd.subperm hsub).length_le
    omega
  | succ f ih =>
    intro fuel₂ frontier res hnd hsub h1 h2
    have hle : frontier.length ≤ G.length := (hnd.subperm hsub).length_le
    cases fuel₂ with
    | zero => omega
    | succ g =>
      rw [getSimilarObjectsLoop_succ, getSimilarObjectsLoop_succ]
      dsimp only
      split
      · rfl
      · cases hc : closest frontier (median * (3 / 4)) with
        | none => rfl
        | some p =>
          obtain ⟨hpf, hpG⟩ := hclosest frontier _ p hc
          have hpush : push_back_if_not_present frontier p = frontier ++ [p] := by
            unfold push_back_if_not_present
            rw [if_neg hpf]
          dsimp only
          rw [hpush]
          have hnd' : (frontier ++ [p]).Nodup := by
            simp [List.nodup_append, hnd, hpf]
          have hsub' : ∀ q ∈ frontier ++ [p], q ∈ G := by
            intro q hq
            rcases List.mem_append.mp hq with hq | hq
            · exact hsub q hq
            · rw [List.mem_singleton.mp hq]
              exact hpG
          have hle' : (frontier ++ [p]).length ≤ G.length := (hnd'.subperm hsub').length_le
          simp only [List.length_append, List.length_singleton] at hle'
          apply ih
          · exact hnd'
          · exact hsub'
          · simp only [List.length_append, List.length_singleton]
            omega
          · simp only [List.length_append, List.length_singleton]
            omega

/-- Witness for C9: on the 2×2 grid scenario, fuel 4 (the bound for a
one-position frontier on a four-cell grid) and fuel 7 agree. -/
theorem getSimilarObjectsLoop_fuel_insensitive_witness :
    getSimilarObjectsLoop scenarioClosestWithin 4 scenarioTrackMatrix [0] 10 4 [(0, 0)] [] =
      getSimilarObjectsLoop scenarioClosestWithin 4 scenarioTrackMatrix [0] 10 7 [(0, 0)] [] :=
  getSimilarObjectsLoop_fuel_insensitive [(0, 0), (0, 1), (1, 0), (1, 1)]
    scenarioClosestWithin 4 scenarioTrackMatrix [0] 10
    (fun frontier d p h => by
      obtain ⟨h1, q, h2⟩ := closestFromCandidates_spec _ frontier d p h
      refine ⟨h1, ?_⟩
      simp only [List.mem_cons, List.not_mem_nil, or_false, Prod.mk.injEq] at h2
      rcases h2 with ⟨rfl, -⟩ | ⟨rfl, -⟩ <;> decide)
    4 7 [(0, 0)] [] (by decide) (by decide) (by decide) (by decide)

end Recommendation
